import Mathlib

/-!
Verification of the geospatial analytics engine of `priceslash` /
PricePoint Intel (`geospatial/proximity.py`, `geospatial/variance.py`,
`geospatial/benchmarking.py`).

Modelling conventions:
* Python floats that only carry data (prices, coordinates, thresholds in
  purely rational computations) are modelled as `ℚ`; quantities that flow
  through transcendental functions (`math.sin`, `math.exp`, `math.sqrt`,
  `math.atan2`) are modelled as `ℝ`.  Arithmetic is exact (no floating
  point rounding).
* Python `dict` records are modelled as structures; fields read with
  `.get(key, default)` where the key is required by the input contract are
  plain fields, fields read with a non-trivial default are `Option`s with
  the default applied at the read site.
* Python `list.sort` (Timsort) is a stable sort; it is modelled by
  `List.insertionSort`, which is stable for the key orders used here.
* Division by zero is total in Lean (`x / 0 = 0`); the source guards every
  division reachable from the properties proved below, except where noted
  in comments.
* `uuid.uuid4()`, `datetime.now()` and f-string renderings are opaque
  presentation data; they are modelled as `""` placeholders.  No claim
  depends on them.
-/

open List

/-- Model of Python `math.atan2 y x` (standard quadrant-correct arctangent). -/
noncomputable def atan2 (y x : ℝ) : ℝ :=
  if 0 < x then Real.arctan (y / x)
  else if x < 0 then
    (if 0 ≤ y then Real.arctan (y / x) + Real.pi else Real.arctan (y / x) - Real.pi)
  else if 0 < y then Real.pi / 2
  else if y < 0 then -(Real.pi / 2)
  else 0

/-- Model of Python `math.radians`. -/
noncomputable def radians (d : ℝ) : ℝ := d * Real.pi / 180

/-- `EARTH_RADIUS_KM = 6371.0` from `proximity.py`. -/
def EARTH_RADIUS_KM : ℝ := 6371

/-- `haversine_distance` from `proximity.py`. -/
noncomputable def haversine_distance (lat1 lon1 lat2 lon2 : ℝ) : ℝ :=
  let lat1_rad := radians lat1
  let lat2_rad := radians lat2
  let delta_lat := radians (lat2 - lat1)
  let delta_lon := radians (lon2 - lon1)
  let a := Real.sin (delta_lat / 2) ^ 2 +
    Real.cos lat1_rad * Real.cos lat2_rad * Real.sin (delta_lon / 2) ^ 2
  let c := 2 * atan2 (Real.sqrt a) (Real.sqrt (1 - a))
  EARTH_RADIUS_KM * c

/-- `calculate_proximity_score` from `proximity.py`. -/
noncomputable def calculate_proximity_score
    (distance_km max_distance_km decay_factor : ℝ) : ℝ :=
  if distance_km ≤ 0 then 100
  else if max_distance_km ≤ distance_km then 0
  else
    let normalized_distance := distance_km / max_distance_km
    let score := 100 * Real.exp (-decay_factor * normalized_distance)
    max 0 (min 100 score)

/-- `estimate_travel_time` from `proximity.py`. -/
noncomputable def estimate_travel_time (distance_km average_speed_kmh : ℝ) : ℝ :=
  if distance_km ≤ 0 then 0 else distance_km / average_speed_kmh

/-- `calculate_shipping_cost_factor` from `proximity.py`.  The body is the
bare affine expression; no flooring is applied. -/
def calculate_shipping_cost_factor (distance_km base_cost_per_km min_factor : ℝ) : ℝ :=
  min_factor + distance_km * base_cost_per_km

/-- Python `round(x, n)` (round half to even), modelled on exact reals. -/
noncomputable def pyRound (x : ℝ) (n : ℕ) : ℝ :=
  let y := x * 10 ^ n
  let f : ℤ := ⌊y⌋
  let r := y - f
  let i : ℤ :=
    if r < 1 / 2 then f
    else if 1 / 2 < r then f + 1
    else if Even f then f else f + 1
  (i : ℝ) / 10 ^ n

/-- Python `min(xs)` for a non-empty list (callers guard emptiness; the `[]`
branch is unreachable in the embedded code). -/
def listMin {α : Type} [LinearOrder α] [Zero α] : List α → α
  | [] => 0
  | x :: xs => xs.foldl min x

/-- Python `max(xs)` for a non-empty list. -/
def listMax {α : Type} [LinearOrder α] [Zero α] : List α → α
  | [] => 0
  | x :: xs => xs.foldl max x

/-- One insertion step of Python dict-of-lists grouping (`d.setdefault`-style
append preserving first-seen key order). -/
def insGroup {α K : Type} [BEq K] (k : K) (a : α) : List (K × List α) → List (K × List α)
  | [] => [(k, [a])]
  | (k', l) :: rest => if k' == k then (k', l ++ [a]) :: rest else (k', l) :: insGroup k a rest

/-- Grouping a list by a key, preserving first-seen key order and record
order within each group, as Python's insertion-ordered dicts do. -/
def groupByKeyOrd {α K : Type} [BEq K] (key : α → K) (l : List α) : List (K × List α) :=
  l.foldl (fun acc a => insGroup (key a) a acc) []

/-- Python `d.get(k, default)` over an association list. -/
def lookupD {β : Type} (l : List (String × β)) (k : String) (d : β) : β :=
  match l.find? (fun p => p.1 == k) with
  | some p => p.2
  | none => d

/-- `Coordinate` from `proximity.py` (coordinates are data, modelled as `ℚ`). -/
structure Coordinate where
  latitude : ℚ
  longitude : ℚ

/-- `Coordinate.validate` from `proximity.py`. -/
def Coordinate.validate (c : Coordinate) : Bool :=
  decide (-90 ≤ c.latitude ∧ c.latitude ≤ 90 ∧ -180 ≤ c.longitude ∧ c.longitude ≤ 180)

/-- `ProximityScore` from `proximity.py`. -/
structure ProximityScore where
  vendor_id : String
  vendor_name : String
  center_id : String
  center_name : String
  market_id : Option String
  distance_km : ℝ
  proximity_score : ℝ
  travel_time_estimate_hours : Option ℝ
  shipping_cost_factor : Option ℝ

/-- The flat mapping produced by `ProximityScore.to_dict`. -/
structure ProximityScoreDict where
  vendor_id : String
  vendor_name : String
  center_id : String
  center_name : String
  market_id : Option String
  distance_km : ℝ
  proximity_score : ℝ
  travel_time_estimate_hours : Option ℝ
  shipping_cost_factor : Option ℝ

/-- `ProximityScore.to_dict` from `proximity.py`.  The two optional fields go
through Python truthiness (`round(v, n) if v else None`): both `None` and a
stored `0.0` serialize to `None`. -/
noncomputable def ProximityScore.to_dict (p : ProximityScore) : ProximityScoreDict where
  vendor_id := p.vendor_id
  vendor_name := p.vendor_name
  center_id := p.center_id
  center_name := p.center_name
  market_id := p.market_id
  distance_km := pyRound p.distance_km 2
  proximity_score := pyRound p.proximity_score 2
  travel_time_estimate_hours :=
    match p.travel_time_estimate_hours with
    | none => none
    | some v => if v = 0 then none else some (pyRound v 2)
  shipping_cost_factor :=
    match p.shipping_cost_factor with
    | none => none
    | some v => if v = 0 then none else some (pyRound v 3)

/-- `VendorCoverage` from `proximity.py`.  The two distance aggregates are
`EReal` so the sentinel `float("inf")` of the no-center branch is `⊤`. -/
structure VendorCoverage where
  vendor_id : String
  vendor_name : String
  market_id : String
  region_name : String
  nearest_center_distance_km : EReal
  average_distance_km : EReal
  coverage_score : ℝ
  center_count : ℕ
  centers : List ProximityScore

/-- Market record consumed by the proximity engine (`market.get(...)`). -/
structure MarketRec where
  latitude : ℚ
  longitude : ℚ
  market_id : String
  region_name : String

/-- Vendor record consumed by the proximity engine. -/
structure VendorRec where
  vendor_id : String
  vendor_name : String

/-- Distribution-center record consumed by the proximity engine. -/
structure CenterRec where
  center_id : String
  center_name : String
  vendor_id : String
  latitude : ℚ
  longitude : ℚ

/-- `ProximityAnalyzer` configuration from `proximity.py`. -/
structure ProximityAnalyzer where
  max_distance_km : ℝ
  decay_factor : ℝ
  average_speed_kmh : ℝ

/-- `ProximityAnalyzer.calculate_proximity` from `proximity.py`.  The
shipping-cost call uses the source's default arguments `0.005` and `1.0`. -/
noncomputable def ProximityAnalyzer.calculate_proximity (a : ProximityAnalyzer)
    (market_lat market_lon center_lat center_lon : ℝ)
    (vendor_id vendor_name center_id center_name : String)
    (market_id : Option String) : ProximityScore :=
  let distance := haversine_distance market_lat market_lon center_lat center_lon
  let score := calculate_proximity_score distance a.max_distance_km a.decay_factor
  let travel_time := estimate_travel_time distance a.average_speed_kmh
  let cost_factor := calculate_shipping_cost_factor distance (5 / 1000) 1
  ⟨vendor_id, vendor_name, center_id, center_name, market_id, distance, score,
    some travel_time, some cost_factor⟩

/-- Ordering of proximity scores by ascending distance
(`proximity_scores.sort(key=lambda x: x.distance_km)`). -/
def distLe (x y : ProximityScore) : Prop := x.distance_km ≤ y.distance_km

noncomputable instance : DecidableRel distLe :=
  fun x y => inferInstanceAs (Decidable (x.distance_km ≤ y.distance_km))

instance : IsTotal ProximityScore distLe := ⟨fun _ _ => le_total _ _⟩

instance : IsTrans ProximityScore distLe := ⟨fun _ _ _ => le_trans⟩

/-- `ProximityAnalyzer.analyze_vendor_coverage` from `proximity.py`. -/
noncomputable def ProximityAnalyzer.analyze_vendor_coverage (a : ProximityAnalyzer)
    (market : MarketRec) (vendor : VendorRec) (distribution_centers : List CenterRec) :
    VendorCoverage :=
  let proximity_scores :=
    (distribution_centers.filter (fun dc => dc.vendor_id == vendor.vendor_id)).map
      (fun dc => a.calculate_proximity (market.latitude : ℝ) (market.longitude : ℝ)
        (dc.latitude : ℝ) (dc.longitude : ℝ)
        vendor.vendor_id vendor.vendor_name dc.center_id dc.center_name
        (some market.market_id))
  if proximity_scores.isEmpty then
    ⟨vendor.vendor_id, vendor.vendor_name, market.market_id, market.region_name,
      ⊤, ⊤, 0, 0, []⟩
  else
    let sorted_scores := proximity_scores.insertionSort distLe
    let distances := sorted_scores.map (·.distance_km)
    let nearest_distance := listMin distances
    let avg_distance := distances.sum / (distances.length : ℝ)
    let weights := (List.range sorted_scores.length).map (fun i : ℕ => (1 : ℝ) / ((i : ℝ) + 1))
    let weight_sum := weights.sum
    let weighted_score :=
      ((sorted_scores.zip weights).map (fun pw => pw.1.proximity_score * pw.2)).sum / weight_sum
    ⟨vendor.vendor_id, vendor.vendor_name, market.market_id, market.region_name,
      (nearest_distance : EReal), (avg_distance : EReal), weighted_score,
      sorted_scores.length, sorted_scores⟩

/-- Ordering of coverages by descending coverage score
(`coverages.sort(key=..., reverse=True)`, which is stable). -/
def covGe (x y : VendorCoverage) : Prop := y.coverage_score ≤ x.coverage_score

noncomputable instance : DecidableRel covGe :=
  fun x y => inferInstanceAs (Decidable (y.coverage_score ≤ x.coverage_score))

instance : IsTotal VendorCoverage covGe := ⟨fun _ _ => le_total _ _⟩

instance : IsTrans VendorCoverage covGe := ⟨fun _ _ _ h h' => le_trans h' h⟩

/-- `ProximityAnalyzer.analyze_market_vendors` from `proximity.py`. -/
noncomputable def ProximityAnalyzer.analyze_market_vendors (a : ProximityAnalyzer)
    (market : MarketRec) (vendors : List VendorRec)
    (distribution_centers : List CenterRec) : List VendorCoverage :=
  ((vendors.map (fun v => a.analyze_vendor_coverage market v distribution_centers)).filter
    (fun c => 0 < c.center_count)).insertionSort covGe

/-- `AnomalyType` from `variance.py`. -/
inductive AnomalyType where
  | price_spike
  | price_drop
  | regional_variance
  | competitor_gap
  | historical_deviation
  | currency_mismatch
deriving DecidableEq

/-- The `.value` string of each `AnomalyType` member. -/
def AnomalyType.value : AnomalyType → String
  | .price_spike => "price_spike"
  | .price_drop => "price_drop"
  | .regional_variance => "regional_variance"
  | .competitor_gap => "competitor_gap"
  | .historical_deviation => "historical_deviation"
  | .currency_mismatch => "currency_mismatch"

/-- `Severity` from `variance.py`. -/
inductive Severity where
  | low
  | medium
  | high
  | critical
deriving DecidableEq

/-- The `.value` string of each `Severity` member. -/
def Severity.value : Severity → String
  | .low => "low"
  | .medium => "medium"
  | .high => "high"
  | .critical => "critical"

/-- The `severity_order` mapping used by `detect_anomalies` for its final sort:
`{CRITICAL: 0, HIGH: 1, MEDIUM: 2, LOW: 3}`. -/
def severity_order : Severity → ℕ
  | .critical => 0
  | .high => 1
  | .medium => 2
  | .low => 3

/-- Pricing observation record (the flat `dict` shape consumed by the
variance and benchmarking engines).  Fields read with a non-trivial default
in the source are `Option`s. -/
structure PricingRecord where
  sku_id : String
  market_id : String
  unit_price : ℚ
  vendor_id : String
  product_name : Option String
  currency_code : Option String
  region_name : Option String
  vendor_name : Option String

/-- `PricingVariance` from `variance.py` (all numerics rational: this code
path never leaves field arithmetic). -/
structure PricingVariance where
  sku_id : String
  product_name : String
  base_region_id : String
  base_region_name : String
  base_price : ℚ
  currency_code : String
  comparison_region_id : String
  comparison_region_name : String
  comparison_price : ℚ
  absolute_variance : ℚ
  percentage_variance : ℚ
  normalized_variance : ℚ
deriving DecidableEq

/-- `AnomalyFlag` from `variance.py`.  `anomaly_id` (a fresh `uuid4`),
`description` (an f-string rendering) and `detected_at` (a wall-clock
timestamp) are opaque presentation data modelled as `""`. -/
structure AnomalyFlag where
  anomaly_id : String
  sku_id : String
  product_name : String
  vendor_id : String
  vendor_name : String
  market_id : Option String
  region_name : Option String
  anomaly_type : AnomalyType
  severity : Severity
  expected_price : Option ℝ
  actual_price : ℝ
  variance_percentage : ℝ
  z_score : Option ℝ
  description : String
  detected_at : String

/-- The flat mapping produced by `AnomalyFlag.to_dict`. -/
structure AnomalyFlagDict where
  anomaly_id : String
  sku_id : String
  product_name : String
  vendor_id : String
  vendor_name : String
  market_id : Option String
  region_name : Option String
  anomaly_type : String
  severity : String
  expected_price : Option ℝ
  actual_price : ℝ
  variance_percentage : ℝ
  z_score : Option ℝ
  description : String
  detected_at : String

/-- `AnomalyFlag.to_dict` from `variance.py`.  `expected_price` and `z_score`
go through Python truthiness (`round(v, 2) if v else None`): both `None` and
a stored `0.0` serialize to `None`. -/
noncomputable def AnomalyFlag.to_dict (f : AnomalyFlag) : AnomalyFlagDict where
  anomaly_id := f.anomaly_id
  sku_id := f.sku_id
  product_name := f.product_name
  vendor_id := f.vendor_id
  vendor_name := f.vendor_name
  market_id := f.market_id
  region_name := f.region_name
  anomaly_type := f.anomaly_type.value
  severity := f.severity.value
  expected_price :=
    match f.expected_price with
    | none => none
    | some v => if v = 0 then none else some (pyRound v 2)
  actual_price := pyRound f.actual_price 2
  variance_percentage := pyRound f.variance_percentage 2
  z_score :=
    match f.z_score with
    | none => none
    | some v => if v = 0 then none else some (pyRound v 2)
  description := f.description
  detected_at := f.detected_at

/-- The statistics mapping returned by `calculate_statistics`. -/
structure Stats where
  mean : ℚ
  median : ℚ
  std_dev : ℝ
  min : ℚ
  max : ℚ
  range : ℚ
  cv : ℝ

/-- `calculate_statistics` from `variance.py`.  `sorted(prices)` is the
stable ascending sort `insertionSort (· ≤ ·)`; `math.sqrt` is `Real.sqrt`. -/
noncomputable def calculate_statistics (prices : List ℚ) : Stats :=
  if prices.isEmpty then ⟨0, 0, 0, 0, 0, 0, 0⟩
  else
    let n := prices.length
    let sorted_prices := prices.insertionSort (· ≤ ·)
    let mean := prices.sum / (n : ℚ)
    let median :=
      if n % 2 = 0 then (sorted_prices.getD (n / 2 - 1) 0 + sorted_prices.getD (n / 2) 0) / 2
      else sorted_prices.getD (n / 2) 0
    let std_dev : ℝ :=
      if 1 < n then
        Real.sqrt (((prices.map (fun p => (p - mean) ^ 2)).sum / ((n : ℚ) - 1) : ℚ))
      else 0
    let min_price := listMin prices
    let max_price := listMax prices
    let price_range := max_price - min_price
    let cv : ℝ := if 0 < mean then std_dev / (mean : ℝ) else 0
    ⟨mean, median, std_dev, min_price, max_price, price_range, cv⟩

/-- `calculate_z_score` from `variance.py`. -/
noncomputable def calculate_z_score (value mean std_dev : ℝ) : ℝ :=
  if std_dev = 0 then 0 else (value - mean) / std_dev

/-- `determine_severity` from `variance.py`.  `abs_z = abs(z_score) if
z_score else 0` applies Python truthiness: both `None` and `0.0` give `0`. -/
noncomputable def determine_severity (z_score : Option ℝ) (variance_percentage : ℝ) : Severity :=
  let abs_z : ℝ :=
    match z_score with
    | none => 0
    | some v => if v = 0 then 0 else |v|
  let abs_var := |variance_percentage|
  if 4 ≤ abs_z ∨ 50 ≤ abs_var then .critical
  else if 3 ≤ abs_z ∨ 30 ≤ abs_var then .high
  else if 2 ≤ abs_z ∨ 15 ≤ abs_var then .medium
  else .low

/-- `VarianceDetector` configuration from `variance.py`
(`regional_adjustment_factors` as an association list). -/
structure VarianceDetector where
  z_score_threshold : ℝ
  variance_threshold_pct : ℝ
  regional_adjustments : List (String × ℚ)

/-- The body of one iteration of `calculate_regional_variance`'s SKU loop.
`st` is the current value of the Python variable `base_region_id`, which is
a parameter that the loop REASSIGNS to `"global_avg"` whenever the fallback
branch is taken — the new value is threaded to subsequent SKUs. -/
def processSku (adj : List (String × ℚ)) (st : Option String) (sku_id : String)
    (markets : List (String × List PricingRecord)) :
    Option String × List PricingVariance :=
  if markets.length < 2 then (st, [])
  else
    match markets.head? with
    | none => (st, [])
    | some (_, first_recs) =>
      match first_recs.head? with
      | none => (st, [])
      | some first_record =>
        let product_name := first_record.product_name.getD sku_id
        let currency := first_record.currency_code.getD "USD"
        let region_avg_prices : List (String × ℚ × String) := markets.filterMap (fun mk =>
          match mk.2.head? with
          | none => none
          | some r0 =>
            let prices := (mk.2.map (·.unit_price)).filter (fun p => !(p == 0))
            if prices.isEmpty then none
            else some (mk.1, prices.sum / (prices.length : ℚ), r0.region_name.getD mk.1))
        if region_avg_prices.length < 2 then (st, [])
        else
          let globalBase : String × String × ℚ × Option String :=
            let all_prices := region_avg_prices.map (fun t => t.2.1)
            ("global_avg", "Global Average",
              all_prices.sum / (all_prices.length : ℚ), some "global_avg")
          let chosen : String × String × ℚ × Option String :=
            match st with
            | some s =>
              if s ≠ "" ∧ region_avg_prices.any (fun t => t.1 == s) then
                let pr := (region_avg_prices.find? (fun t => t.1 == s)).getD ("", 0, "")
                (s, pr.2.2, pr.2.1, some s)
              else globalBase
            | none => globalBase
          let base_id := chosen.1
          let base_name := chosen.2.1
          let base_price := chosen.2.2.1
          let st' := chosen.2.2.2
          let variances := region_avg_prices.filterMap (fun t =>
            if t.1 == base_id then none
            else
              let price := t.2.1
              let absolute_var := price - base_price
              let pct_var := if 0 < base_price then absolute_var / base_price * 100 else 0
              let adjustment := lookupD adj t.1 1
              some ⟨sku_id, product_name, base_id, base_name, base_price, currency,
                t.1, t.2.2, price, absolute_var, pct_var, pct_var / adjustment⟩)
          (st', variances)

/-- `VarianceDetector.calculate_regional_variance` from `variance.py`:
group by SKU then by market (both insertion-ordered), then run the SKU loop
threading the mutable `base_region_id` variable. -/
def VarianceDetector.calculate_regional_variance (det : VarianceDetector)
    (pricing_data : List PricingRecord) (base_region_id : Option String) :
    List PricingVariance :=
  let sku_prices := (groupByKeyOrd (fun r : PricingRecord => r.sku_id) pricing_data).map
    (fun g => (g.1, groupByKeyOrd (fun r : PricingRecord => r.market_id) g.2))
  (sku_prices.foldl (fun acc g =>
      let r := processSku det.regional_adjustments acc.1 g.1 g.2
      (r.1, acc.2 ++ r.2)) (base_region_id, [])).2

/-- Ordering of anomalies by the `severity_order` key of the final sort in
`detect_anomalies` (critical first); Python's stable sort is
`insertionSort`. -/
def sevLe (x y : AnomalyFlag) : Prop :=
  severity_order x.severity ≤ severity_order y.severity

instance : DecidableRel sevLe := fun a b =>
  Nat.decLe (severity_order a.severity) (severity_order b.severity)

instance : IsTotal AnomalyFlag sevLe := ⟨fun _ _ => Nat.le_total _ _⟩

instance : IsTrans AnomalyFlag sevLe := ⟨fun _ _ _ => Nat.le_trans⟩

/-- The per-observation branch of `detect_anomalies`: the body of the inner
`for record in records` loop (spike/drop flags). -/
noncomputable def perRecordFlag (det : VarianceDetector) (sku_id product_name : String)
    (stats : Stats) (r : PricingRecord) : Option AnomalyFlag :=
  if r.unit_price ≤ 0 then none
  else
    let price : ℚ := r.unit_price
    let vendor_name := r.vendor_name.getD r.vendor_id
    let z_score := calculate_z_score (price : ℝ) (stats.mean : ℝ) stats.std_dev
    let variance_pct : ℚ :=
      if 0 < stats.mean then (price - stats.mean) / stats.mean * 100 else 0
    if det.z_score_threshold ≤ |z_score| ∨
        det.variance_threshold_pct ≤ |(variance_pct : ℝ)| then
      let atype := if 0 < z_score then AnomalyType.price_spike else AnomalyType.price_drop
      some ⟨"", sku_id, product_name, r.vendor_id, vendor_name, some r.market_id,
        r.region_name, atype, determine_severity (some z_score) (variance_pct : ℝ),
        some (stats.mean : ℝ), (price : ℝ), (variance_pct : ℝ), some z_score, "", ""⟩
    else none

/-- The per-SKU-group body of `detect_anomalies`: skip empty groups and
groups with fewer than 2 truthy prices, else flag every observation. -/
noncomputable def perSkuFlags (det : VarianceDetector) (g : String × List PricingRecord) :
    List AnomalyFlag :=
  match g.2.head? with
  | none => []
  | some r0 =>
    let product_name := r0.product_name.getD g.1
    let prices := (g.2.map (·.unit_price)).filter (fun p => !(p == 0))
    if prices.length < 2 then []
    else g.2.filterMap (perRecordFlag det g.1 product_name (calculate_statistics prices))

/-- The regional-variance branch of `detect_anomalies`: emit a
`regional_variance` flag only when the percentage variance crosses the
threshold and its severity resolves to high/critical. -/
noncomputable def regionalFlag (det : VarianceDetector) (v : PricingVariance) :
    Option AnomalyFlag :=
  if det.variance_threshold_pct ≤ |(v.percentage_variance : ℝ)| then
    let severity := determine_severity none (v.percentage_variance : ℝ)
    if severity.value = "high" ∨ severity.value = "critical" then
      some ⟨"", v.sku_id, v.product_name, "", "Multiple Vendors",
        some v.comparison_region_id, some v.comparison_region_name,
        AnomalyType.regional_variance, severity,
        some (v.base_price : ℝ), (v.comparison_price : ℝ),
        (v.percentage_variance : ℝ), none, "", ""⟩
    else none
  else none

/-- The anomaly list of `VarianceDetector.detect_anomalies` in discovery
order, before the final severity sort: per-observation spike/drop flags for
every SKU group, followed by the `regional_variance` flags. -/
noncomputable def detectAnomaliesPre (det : VarianceDetector)
    (pricing_data : List PricingRecord) : List AnomalyFlag :=
  ((groupByKeyOrd (fun r : PricingRecord => r.sku_id) pricing_data).map
      (perSkuFlags det)).flatten
    ++ (det.calculate_regional_variance pricing_data none).filterMap (regionalFlag det)

/-- `VarianceDetector.detect_anomalies` from `variance.py`: the discovery
list followed by the stable sort on `severity_order`. -/
noncomputable def VarianceDetector.detect_anomalies (det : VarianceDetector)
    (pricing_data : List PricingRecord) : List AnomalyFlag :=
  (detectAnomaliesPre det pricing_data).insertionSort sevLe

/-- `calculate_competitiveness_score` from `benchmarking.py`, over `ℚ`.
Lean's total division (`x / 0 = 0`) is used for the below-average bonus;
Python would raise `ZeroDivisionError` there only when `avg_price == 0` and
`vendor_price < 0`. -/
def calculate_competitiveness_score (vendor_price min_price max_price avg_price : ℚ) : ℚ :=
  if max_price = min_price then 50
  else
    let price_range := max_price - min_price
    let normalized_position := (vendor_price - min_price) / price_range
    let score := (1 - normalized_position) * 100
    let score' :=
      if vendor_price < avg_price then
        min 100 (score + ((avg_price - vendor_price) / avg_price) * 20)
      else score
    max 0 (min 100 score')

/-- C4 (amended): `calculate_shipping_cost_factor` returns
`min_factor + distance_km * base_cost_per_km` with no flooring; the result is
at least `min_factor` whenever `distance_km * base_cost_per_km ≥ 0` (in
particular for non-negative distances and non-negative per-km costs). -/
theorem shipping_cost_factor_spec (d b m : ℝ) :
    calculate_shipping_cost_factor d b m = m + d * b ∧
    (0 ≤ d * b → m ≤ calculate_shipping_cost_factor d b m) := by
  refine ⟨rfl, fun h => ?_⟩
  unfold calculate_shipping_cost_factor
  linarith

theorem shipping_cost_factor_spec_witness :
    calculate_shipping_cost_factor 10 (5 / 1000) 1 = 1 + 10 * (5 / 1000) ∧
    (1 : ℝ) ≤ calculate_shipping_cost_factor 10 (5 / 1000) 1 :=
  ⟨(shipping_cost_factor_spec 10 (5 / 1000) 1).1,
   (shipping_cost_factor_spec 10 (5 / 1000) 1).2 (by norm_num)⟩

/-- C4 (counterexample): at `distance_km = -1`, `base_cost_per_km = 0.005`,
`min_factor = 1` the returned multiplier is `0.995 < 1`, so the result is
not floored at `min_factor`. -/
theorem shipping_cost_factor_below_min :
    calculate_shipping_cost_factor (-1) (5 / 1000) 1 = 995 / 1000 ∧
    calculate_shipping_cost_factor (-1) (5 / 1000) 1 < 1 := by
  unfold calculate_shipping_cost_factor
  norm_num

/-- C5: for `0 < M` and `0 < k`, `calculate_proximity_score` returns exactly
`100` at `d ≤ 0`, exactly `0` at `d ≥ M`, and `100·exp(-k·d/M)` on `0 < d < M`;
the result always lies in `[0, 100]`, and the score is strictly decreasing in
the distance on `(0, M)`. -/
theorem proximity_score_spec (M k d d' : ℝ) (hM : 0 < M) (hk : 0 < k) :
    (d ≤ 0 → calculate_proximity_score d M k = 100) ∧
    (M ≤ d → calculate_proximity_score d M k = 0) ∧
    (0 < d → d < M → calculate_proximity_score d M k = 100 * Real.exp (-k * (d / M))) ∧
    (0 ≤ calculate_proximity_score d M k ∧ calculate_proximity_score d M k ≤ 100) ∧
    (0 < d → d < d' → d' < M →
      calculate_proximity_score d' M k < calculate_proximity_score d M k) := by
  have key : ∀ e : ℝ, 0 < e → e < M →
      calculate_proximity_score e M k = 100 * Real.exp (-k * (e / M)) := by
    intro e he heM
    unfold calculate_proximity_score
    rw [if_neg (by linarith), if_neg (by linarith)]
    have hexp_pos : 0 < 100 * Real.exp (-k * (e / M)) := by positivity
    have hexp_le : 100 * Real.exp (-k * (e / M)) ≤ 100 := by
      have h1 : Real.exp (-k * (e / M)) ≤ 1 := by
        rw [Real.exp_le_one_iff]
        have : 0 ≤ k * (e / M) := by positivity
        linarith
      nlinarith
    simp only []
    rw [min_eq_right hexp_le, max_eq_right (le_of_lt hexp_pos)]
  refine ⟨?_, ?_, key d, ?_, ?_⟩
  · intro h; unfold calculate_proximity_score; rw [if_pos h]
  · intro h
    unfold calculate_proximity_score
    rcases le_or_lt d 0 with h0 | h0
    · linarith
    · rw [if_neg (by linarith), if_pos h]
  · rcases le_or_lt d 0 with h0 | h0
    · unfold calculate_proximity_score
      rw [if_pos h0]; norm_num
    · rcases le_or_lt M d with h1 | h1
      · unfold calculate_proximity_score
        rw [if_neg (by linarith), if_pos h1]; norm_num
      · rw [key d h0 h1]
        constructor
        · positivity
        · have h2 : Real.exp (-k * (d / M)) ≤ 1 := by
            rw [Real.exp_le_one_iff]
            have : 0 ≤ k * (d / M) := by positivity
            linarith
          nlinarith
  · intro h0 hdd' hd'M
    rw [key d h0 (by linarith), key d' (by linarith) hd'M]
    have hdiv : d / M < d' / M := by
      apply div_lt_div_of_pos_right hdd' hM
    have hmul := mul_lt_mul_of_pos_left hdiv hk
    have hexp : Real.exp (-k * (d' / M)) < Real.exp (-k * (d / M)) :=
      Real.exp_lt_exp.mpr (by nlinarith)
    nlinarith [hexp]

/- Helper lemmas (shared; not claim theorems). -/

theorem foldl_min_spec {α : Type} [LinearOrder α] (x : α) (xs : List α) :
    (xs.foldl min x = x ∨ xs.foldl min x ∈ xs) ∧ xs.foldl min x ≤ x ∧
      ∀ y ∈ xs, xs.foldl min x ≤ y := by
  induction xs generalizing x with
  | nil => simp
  | cons y ys ih =>
    have h := ih (min x y)
    simp only [List.foldl_cons]
    refine ⟨?_, ?_, ?_⟩
    · rcases h.1 with h1 | h1
      · rw [h1]
        rcases min_choice x y with he | he
        · exact Or.inl he
        · exact Or.inr (by rw [he]; exact List.mem_cons_self _ _)
      · exact Or.inr (List.mem_cons_of_mem _ h1)
    · exact le_trans h.2.1 (min_le_left _ _)
    · intro z hz
      rcases List.mem_cons.mp hz with rfl | hz'
      · exact le_trans h.2.1 (min_le_right _ _)
      · exact h.2.2 z hz'

theorem foldl_max_spec {α : Type} [LinearOrder α] (x : α) (xs : List α) :
    (xs.foldl max x = x ∨ xs.foldl max x ∈ xs) ∧ x ≤ xs.foldl max x ∧
      ∀ y ∈ xs, y ≤ xs.foldl max x := by
  induction xs generalizing x with
  | nil => simp
  | cons y ys ih =>
    have h := ih (max x y)
    simp only [List.foldl_cons]
    refine ⟨?_, ?_, ?_⟩
    · rcases h.1 with h1 | h1
      · rw [h1]
        rcases max_choice x y with he | he
        · exact Or.inl he
        · exact Or.inr (by rw [he]; exact List.mem_cons_self _ _)
      · exact Or.inr (List.mem_cons_of_mem _ h1)
    · exact le_trans (le_max_left _ _) h.2.1
    · intro z hz
      rcases List.mem_cons.mp hz with rfl | hz'
      · exact le_trans (le_max_right _ _) h.2.1
      · exact h.2.2 z hz'

theorem listMin_spec {α : Type} [LinearOrder α] [Zero α] (l : List α) (h : l ≠ []) :
    listMin l ∈ l ∧ ∀ y ∈ l, listMin l ≤ y := by
  match l with
  | [] => exact absurd rfl h
  | x :: xs =>
    have hs := foldl_min_spec x xs
    constructor
    · rcases hs.1 with h1 | h1
      · simp only [listMin]; rw [h1]; exact List.mem_cons_self _ _
      · exact List.mem_cons_of_mem _ h1
    · intro y hy
      rcases List.mem_cons.mp hy with rfl | hy'
      · exact hs.2.1
      · exact hs.2.2 y hy'

theorem listMax_spec {α : Type} [LinearOrder α] [Zero α] (l : List α) (h : l ≠ []) :
    listMax l ∈ l ∧ ∀ y ∈ l, y ≤ listMax l := by
  match l with
  | [] => exact absurd rfl h
  | x :: xs =>
    have hs := foldl_max_spec x xs
    constructor
    · rcases hs.1 with h1 | h1
      · simp only [listMax]; rw [h1]; exact List.mem_cons_self _ _
      · exact List.mem_cons_of_mem _ h1
    · intro y hy
      rcases List.mem_cons.mp hy with rfl | hy'
      · exact hs.2.1
      · exact hs.2.2 y hy'

/-- C3 (counterexample): an out-of-range coordinate (latitude `100`) fails
`Coordinate.validate`, yet `haversine_distance` and `calculate_proximity`
silently accept it and return an ordinary in-range result (distance `0`,
full proximity score `100`), and a negative distance is silently accepted by
`calculate_proximity_score` (scoring `100`) — no `InvalidCoordinate` or
`InvalidDistance` error kind exists in the code, and the coordinate bounds
are not enforced before distances are computed. -/
theorem coordinate_bounds_not_enforced :
    Coordinate.validate ⟨100, 0⟩ = false ∧
    haversine_distance 100 0 100 0 = 0 ∧
    (ProximityAnalyzer.calculate_proximity ⟨500, 2, 60⟩ 100 0 100 0
      "v" "vn" "c" "cn" none).proximity_score = 100 ∧
    calculate_proximity_score (-5) 500 2 = 100 := by
  have hhav : haversine_distance 100 0 100 0 = 0 := by
    unfold haversine_distance radians atan2
    norm_num
  refine ⟨by decide, hhav, ?_, ?_⟩
  · unfold ProximityAnalyzer.calculate_proximity
    simp only [hhav]
    unfold calculate_proximity_score
    norm_num
  · unfold calculate_proximity_score
    norm_num

/-- C3 (amended): `Coordinate.validate` returns `true` exactly for in-range
coordinates (latitude in `[-90, 90]`, longitude in `[-180, 180]`), but the
proximity operations never invoke it and report no error kind: out-of-range
coordinates and negative distances are silently accepted, a non-positive
distance scoring `100` and travelling `0` hours. -/
theorem coordinate_validation_spec (c : Coordinate) (d M k s : ℝ) :
    (c.validate = true ↔
      (-90 ≤ c.latitude ∧ c.latitude ≤ 90 ∧ -180 ≤ c.longitude ∧ c.longitude ≤ 180)) ∧
    (d ≤ 0 → calculate_proximity_score d M k = 100) ∧
    (d ≤ 0 → estimate_travel_time d s = 0) := by
  refine ⟨?_, fun h => ?_, fun h => ?_⟩
  · exact decide_eq_true_iff
  · unfold calculate_proximity_score; rw [if_pos h]
  · unfold estimate_travel_time; rw [if_pos h]

theorem coordinate_validation_spec_witness :
    Coordinate.validate ⟨91, 0⟩ = false ∧
    Coordinate.validate ⟨45, 45⟩ = true ∧
    calculate_proximity_score (-3) 500 2 = 100 ∧
    estimate_travel_time (-3) 60 = 0 := by
  have h := coordinate_validation_spec ⟨91, 0⟩ (-3) 500 2 60
  have h' := coordinate_validation_spec ⟨45, 45⟩ (-3) 500 2 60
  refine ⟨?_, ?_, h.2.1 (by norm_num), h.2.2 (by norm_num)⟩
  · by_contra hb
    have := h.1.mp (by revert hb; cases hv : Coordinate.validate ⟨91, 0⟩ <;> simp)
    norm_num at this
  · exact h'.1.mpr (by norm_num)

/-- C8 (counterexample): with `min_price = -10 < max_price = 0` and
`min_price ≤ avg_price = -1 ≤ max_price`, the below-average "bonus" is
negative (it is proportional to `(avg-price)/avg` with `avg < 0`), the
min-price score clamps to `0`, and the claimed strict inequality
`score(min) > score(max)` fails: both scores are `0`. -/
theorem competitiveness_score_not_strict :
    (-10 : ℚ) < 0 ∧ (-10 : ℚ) ≤ -1 ∧ (-1 : ℚ) ≤ 0 ∧
    calculate_competitiveness_score (-10) (-10) 0 (-1) = 0 ∧
    calculate_competitiveness_score 0 (-10) 0 (-1) = 0 ∧
    ¬(calculate_competitiveness_score 0 (-10) 0 (-1) <
        calculate_competitiveness_score (-10) (-10) 0 (-1)) := by
  refine ⟨by norm_num, by norm_num, by norm_num, ?_, ?_, ?_⟩ <;>
    · unfold calculate_competitiveness_score
      norm_num

/-- C8 (amended): `calculate_competitiveness_score` always returns a value in
`[0, 100]`, returns exactly `50` whenever `min_price = max_price`, and is
strictly larger at `vendor_price = min_price` than at `vendor_price =
max_price` whenever `min_price < max_price`, `min_price ≤ avg_price ≤
max_price` and additionally `0 < avg_price` (positive prices). -/
theorem competitiveness_score_spec (p mn mx av : ℚ) :
    (0 ≤ calculate_competitiveness_score p mn mx av ∧
      calculate_competitiveness_score p mn mx av ≤ 100) ∧
    (mx = mn → calculate_competitiveness_score p mn mx av = 50) ∧
    (mn < mx → mn ≤ av → av ≤ mx → 0 < av →
      calculate_competitiveness_score mx mn mx av <
        calculate_competitiveness_score mn mn mx av) := by
  refine ⟨?_, fun h => ?_, fun hlt hmnav havmx hav => ?_⟩
  · unfold calculate_competitiveness_score
    split
    · norm_num
    · constructor
      · exact le_max_left _ _
      · exact max_le (by norm_num) (min_le_left _ _)
  · unfold calculate_competitiveness_score
    rw [if_pos h]
  · have hne : mx ≠ mn := ne_of_gt hlt
    have hrange : (0 : ℚ) < mx - mn := by linarith
    have hmin : calculate_competitiveness_score mn mn mx av = 100 := by
      unfold calculate_competitiveness_score
      rw [if_neg hne]
      simp only [sub_self, zero_div, sub_zero, one_mul]
      by_cases hc : mn < av
      · rw [if_pos hc]
        have hb : 0 ≤ (av - mn) / av * 20 := by
          apply mul_nonneg _ (by norm_num)
          apply div_nonneg (by linarith) (le_of_lt hav)
        rw [min_eq_left (by linarith : (100 : ℚ) ≤ 100 + (av - mn) / av * 20)]
        norm_num
      · rw [if_neg hc]
        norm_num
    have hmax : calculate_competitiveness_score mx mn mx av = 0 := by
      unfold calculate_competitiveness_score
      rw [if_neg hne]
      have hdiv : (mx - mn) / (mx - mn) = 1 := div_self (ne_of_gt hrange)
      simp only [hdiv]
      rw [if_neg (by linarith : ¬ mx < av)]
      norm_num
    rw [hmin, hmax]
    norm_num

theorem competitiveness_score_spec_witness :
    (0 ≤ calculate_competitiveness_score 2 1 3 2 ∧
      calculate_competitiveness_score 2 1 3 2 ≤ 100) ∧
    calculate_competitiveness_score 1 1 1 2 = 50 ∧
    calculate_competitiveness_score 3 1 3 2 < calculate_competitiveness_score 1 1 3 2 :=
  ⟨(competitiveness_score_spec 2 1 3 2).1,
   (competitiveness_score_spec 1 1 1 2).2.1 rfl,
   (competitiveness_score_spec 1 1 3 2).2.2 (by norm_num) (by norm_num)
     (by norm_num) (by norm_num)⟩

/-- C9: serialization maps present-but-zero optional floats to `None`: an
`AnomalyFlag` whose `z_score` (or `expected_price`) is exactly `0.0`
serializes that field as `None`, and a `ProximityScore` whose
`travel_time_estimate_hours` is `0.0` (as produced for `distance ≤ 0`, since
`estimate_travel_time` then returns `0`) serializes it as `None`, even though
the field holds a numeric value. -/
theorem to_dict_zero_optionals (f : AnomalyFlag) (p : ProximityScore) (d s : ℝ) :
    (f.z_score = some 0 → f.to_dict.z_score = none) ∧
    (f.expected_price = some 0 → f.to_dict.expected_price = none) ∧
    (p.travel_time_estimate_hours = some 0 → p.to_dict.travel_time_estimate_hours = none) ∧
    (d ≤ 0 → estimate_travel_time d s = 0) := by
  refine ⟨fun h => ?_, fun h => ?_, fun h => ?_, fun h => ?_⟩
  · simp [AnomalyFlag.to_dict, h]
  · simp [AnomalyFlag.to_dict, h]
  · simp [ProximityScore.to_dict, h]
  · unfold estimate_travel_time; rw [if_pos h]

theorem to_dict_zero_optionals_witness :
    (AnomalyFlag.to_dict ⟨"i", "s", "p", "v", "n", none, none, .price_drop, .low,
      some 0, 5, 10, some 0, "", ""⟩).z_score = none ∧
    (AnomalyFlag.to_dict ⟨"i", "s", "p", "v", "n", none, none, .price_drop, .low,
      some 0, 5, 10, some 0, "", ""⟩).expected_price = none ∧
    (ProximityScore.to_dict ⟨"v", "n", "c", "cn", none, 0, 100, some 0, some 1⟩).travel_time_estimate_hours = none ∧
    estimate_travel_time 0 60 = 0 := by
  have h := to_dict_zero_optionals
    ⟨"i", "s", "p", "v", "n", none, none, .price_drop, .low, some 0, 5, 10, some 0, "", ""⟩
    ⟨"v", "n", "c", "cn", none, 0, 100, some 0, some 1⟩ 0 60
  exact ⟨h.1 rfl, h.2.1 rfl, h.2.2.1 rfl, h.2.2.2 le_rfl⟩

/-- C2 (code bug evidence): `calculate_regional_variance` reassigns its
`base_region_id` parameter to `"global_avg"` inside the SKU loop, so after
one SKU (here "A") lacking the supplied base region `"m3"`, the next SKU
("B") is compared against the global average (base id `"global_avg"`, base
price `20`) even though `"m3"` is among its markets with average price `10`. -/
theorem calculate_regional_variance_clobbers_base :
    (VarianceDetector.calculate_regional_variance ⟨2, 15, []⟩
      [⟨"A", "m1", 10, "v", none, none, none, none⟩,
       ⟨"A", "m2", 20, "v", none, none, none, none⟩,
       ⟨"B", "m3", 10, "v", none, none, none, none⟩,
       ⟨"B", "m4", 30, "v", none, none, none, none⟩]
      (some "m3")).map
        (fun v => (v.sku_id, v.base_region_id, v.base_price, v.comparison_region_id))
      = [("A", "global_avg", 15, "m1"), ("A", "global_avg", 15, "m2"),
         ("B", "global_avg", 20, "m3"), ("B", "global_avg", 20, "m4")] := by
  simp +decide [VarianceDetector.calculate_regional_variance, groupByKeyOrd, List.foldl,
    insGroup, processSku, lookupD]
  norm_num

/-- C6: `calculate_statistics` returns mean `sum/n`; median the middle
element of the stably sorted list for odd `n` and the average of the two
central elements for even `n`; a Bessel-corrected (`n-1` divisor) sample
standard deviation for `n > 1` and `0` for `n ≤ 1`; min, max, and
`range = max - min`; coefficient of variation `std_dev/mean` for `mean > 0`
and `0` otherwise; and on the empty list every field is `0` with no error. -/
theorem calculate_statistics_spec (prices : List ℚ) :
    (prices = [] → calculate_statistics prices = ⟨0, 0, 0, 0, 0, 0, 0⟩) ∧
    (prices ≠ [] →
      (prices.insertionSort (· ≤ ·)).Perm prices ∧
      List.Sorted (· ≤ ·) (prices.insertionSort (· ≤ ·)) ∧
      (calculate_statistics prices).mean = prices.sum / (prices.length : ℚ) ∧
      (prices.length % 2 = 0 →
        (calculate_statistics prices).median =
          ((prices.insertionSort (· ≤ ·)).getD (prices.length / 2 - 1) 0 +
            (prices.insertionSort (· ≤ ·)).getD (prices.length / 2) 0) / 2) ∧
      (¬ prices.length % 2 = 0 →
        (calculate_statistics prices).median =
          (prices.insertionSort (· ≤ ·)).getD (prices.length / 2) 0) ∧
      (1 < prices.length →
        0 ≤ (calculate_statistics prices).std_dev ∧
        (calculate_statistics prices).std_dev ^ 2 =
          (((prices.map (fun p => (p - prices.sum / (prices.length : ℚ)) ^ 2)).sum /
            ((prices.length : ℚ) - 1) : ℚ) : ℝ)) ∧
      (prices.length ≤ 1 → (calculate_statistics prices).std_dev = 0) ∧
      (calculate_statistics prices).min ∈ prices ∧
      (∀ p ∈ prices, (calculate_statistics prices).min ≤ p) ∧
      (calculate_statistics prices).max ∈ prices ∧
      (∀ p ∈ prices, p ≤ (calculate_statistics prices).max) ∧
      (calculate_statistics prices).range =
        (calculate_statistics prices).max - (calculate_statistics prices).min ∧
      (0 < (calculate_statistics prices).mean →
        (calculate_statistics prices).cv * ((calculate_statistics prices).mean : ℝ) =
          (calculate_statistics prices).std_dev) ∧
      ((calculate_statistics prices).mean ≤ 0 → (calculate_statistics prices).cv = 0)) := by
  refine ⟨fun h => by subst h; rfl, fun hne => ?_⟩
  have hne' : prices.isEmpty = false := by
    cases prices with
    | nil => exact absurd rfl hne
    | cons a l => rfl
  have hperm := List.perm_insertionSort (· ≤ · : ℚ → ℚ → Prop) prices
  have hsort := List.sorted_insertionSort (· ≤ · : ℚ → ℚ → Prop) prices
  have hmin := listMin_spec prices hne
  have hmax := listMax_spec prices hne
  refine ⟨hperm, hsort, ?_, fun hev => ?_, fun hodd => ?_, fun h1 => ?_, fun h1 => ?_,
    ?_, ?_, ?_, ?_, ?_, fun h0 => ?_, fun h0 => ?_⟩
  · simp [calculate_statistics, hne']
  · simp [calculate_statistics, hne', hev]
  · simp [calculate_statistics, hne', hodd]
  · have h2 : (2 : ℚ) ≤ (prices.length : ℚ) := by exact_mod_cast h1
    have hq : (0 : ℚ) ≤
        (prices.map (fun p => (p - prices.sum / (prices.length : ℚ)) ^ 2)).sum /
          ((prices.length : ℚ) - 1) := by
      apply div_nonneg
      · apply List.sum_nonneg
        intro x hx
        obtain ⟨p, -, rfl⟩ := List.mem_map.mp hx
        positivity
      · linarith
    constructor
    · simp only [calculate_statistics, hne', Bool.false_eq_true, if_false, if_pos h1]
      exact Real.sqrt_nonneg _
    · simp only [calculate_statistics, hne', Bool.false_eq_true, if_false, if_pos h1]
      rw [Real.sq_sqrt (by exact_mod_cast hq)]
  · simp [calculate_statistics, hne', Nat.not_lt.mpr h1]
  · simpa [calculate_statistics, hne'] using hmin.1
  · intro p hp
    simpa [calculate_statistics, hne'] using hmin.2 p hp
  · simpa [calculate_statistics, hne'] using hmax.1
  · intro p hp
    simpa [calculate_statistics, hne'] using hmax.2 p hp
  · simp [calculate_statistics, hne']
  · simp only [calculate_statistics, hne', Bool.false_eq_true, if_false] at h0 ⊢
    rw [if_pos h0]
    have hm : ((prices.sum / (prices.length : ℚ) : ℚ) : ℝ) ≠ 0 := by
      exact_mod_cast ne_of_gt (Rat.cast_pos.mpr h0)
    exact div_mul_cancel₀ _ hm
  · simp only [calculate_statistics, hne', Bool.false_eq_true, if_false] at h0 ⊢
    rw [if_neg (not_lt.mpr h0)]

theorem calculate_statistics_spec_witness :
    calculate_statistics [] = ⟨0, 0, 0, 0, 0, 0, 0⟩ ∧
    (calculate_statistics [1, 3, 5]).mean = 3 ∧
    (calculate_statistics [1, 3, 5]).median = 3 ∧
    (calculate_statistics [1, 3, 5]).min = 1 ∧
    (calculate_statistics [1, 3, 5]).max = 5 ∧
    (calculate_statistics [1, 3, 5]).range = 4 ∧
    0 ≤ (calculate_statistics [1, 3, 5]).std_dev ∧
    (calculate_statistics [1, 3, 5]).std_dev ^ 2 = 4 := by
  have h0 := (calculate_statistics_spec []).1 rfl
  have h := (calculate_statistics_spec [1, 3, 5]).2 (by simp)
  obtain ⟨-, -, hmean, -, hodd, hstd, -, -, -, -, -, hrange, -, -⟩ := h
  have hmean3 : (calculate_statistics [1, 3, 5]).mean = 3 := by
    rw [hmean]; norm_num [List.sum_cons, List.sum_nil]
  have hminv : (calculate_statistics [1, 3, 5]).min = 1 := by decide
  have hmaxv : (calculate_statistics [1, 3, 5]).max = 5 := by decide
  have hstd' := hstd (by norm_num)
  refine ⟨h0, hmean3, ?_, hminv, hmaxv, ?_, hstd'.1, ?_⟩
  · rw [hodd (by norm_num)]
    decide
  · rw [hrange, hminv, hmaxv]
    norm_num
  · rw [hstd'.2]
    push_cast
    norm_num [List.map_cons, List.map_nil, List.sum_cons, List.sum_nil]

theorem severity_high_or_critical_of_value {s : Severity}
    (h : s.value = "high" ∨ s.value = "critical") :
    s = Severity.high ∨ s = Severity.critical := by
  cases s <;> simp_all [Severity.value]

theorem filter_sev_orderedInsert (s : Severity) (a : AnomalyFlag) (l : List AnomalyFlag) :
    (l.orderedInsert sevLe a).filter (fun x => x.severity == s) =
      if a.severity == s then a :: l.filter (fun x => x.severity == s)
      else l.filter (fun x => x.severity == s) := by
  induction l with
  | nil => simp [List.orderedInsert, List.filter_cons]
  | cons b t ih =>
    by_cases hab : sevLe a b
    · rw [List.orderedInsert, if_pos hab]
      simp [List.filter_cons]
    · rw [List.orderedInsert, if_neg hab]
      have hba : severity_order b.severity < severity_order a.severity := by
        simpa [sevLe] using hab
      by_cases has : a.severity = s
      · have hbs : ¬ b.severity = s := by
          intro hb
          rw [← has] at hb
          rw [hb] at hba
          exact lt_irrefl _ hba
        simp [List.filter_cons, has, hbs, ih]
      · simp [List.filter_cons, has, ih]

theorem filter_sev_insertionSort (s : Severity) (l : List AnomalyFlag) :
    (l.insertionSort sevLe).filter (fun x => x.severity == s) =
      l.filter (fun x => x.severity == s) := by
  induction l with
  | nil => rfl
  | cons a t ih =>
    rw [List.insertionSort, filter_sev_orderedInsert, ih, List.filter_cons]

theorem perRecordFlag_ne_rv (det : VarianceDetector) (sid pname : String)
    (st : Stats) (r : PricingRecord) (a : AnomalyFlag)
    (h : perRecordFlag det sid pname st r = some a) :
    a.anomaly_type ≠ AnomalyType.regional_variance := by
  simp only [perRecordFlag] at h
  split at h
  · simp at h
  · split at h <;> split at h <;>
      first
        | exact Option.noConfusion h
        | (obtain rfl := Option.some.inj h
           dsimp only
           split <;> simp)

theorem regionalFlag_props (det : VarianceDetector) (v : PricingVariance) (a : AnomalyFlag)
    (h : regionalFlag det v = some a) :
    a.anomaly_type = AnomalyType.regional_variance ∧
    (a.severity = Severity.high ∨ a.severity = Severity.critical) ∧
    det.variance_threshold_pct ≤ |a.variance_percentage| := by
  simp only [regionalFlag] at h
  split at h
  · split at h
    · obtain rfl := Option.some.inj h
      rename_i hv hsev
      exact ⟨rfl, severity_high_or_critical_of_value hsev, hv⟩
    · simp at h
  · simp at h

theorem detectAnomaliesPre_regional_props (det : VarianceDetector)
    (data : List PricingRecord) :
    ∀ a ∈ detectAnomaliesPre det data,
      a.anomaly_type = AnomalyType.regional_variance →
        (a.severity = Severity.high ∨ a.severity = Severity.critical) ∧
        det.variance_threshold_pct ≤ |a.variance_percentage| := by
  intro a ha h
  rw [detectAnomaliesPre, List.mem_append] at ha
  rcases ha with ha | ha
  · exfalso
    rw [List.mem_flatten] at ha
    obtain ⟨l, hl, hal⟩ := ha
    rw [List.mem_map] at hl
    obtain ⟨g, -, rfl⟩ := hl
    rw [perSkuFlags] at hal
    cases hh : g.2.head? with
    | none =>
      rw [hh] at hal
      simp at hal
    | some r0 =>
      rw [hh] at hal
      dsimp only at hal
      split at hal
      · simp at hal
      · obtain ⟨r, -, hfr⟩ := List.mem_filterMap.mp hal
        exact perRecordFlag_ne_rv _ _ _ _ _ _ hfr h
  · obtain ⟨v, -, hfv⟩ := List.mem_filterMap.mp ha
    exact ⟨(regionalFlag_props det v a hfv).2.1, (regionalFlag_props det v a hfv).2.2⟩

/-- C7: every `regional_variance` anomaly in the list returned by
`detect_anomalies` has `|percentage_variance| ≥ variance_threshold_pct` and
severity high or critical (low/medium regional variances are never emitted),
and the returned list is the stable severity sort of the discovery-order
list: it is sorted by `severity_order` (critical first, then high, medium,
low) and, per severity level, keeps exactly the discovery-order sublist. -/
theorem detect_anomalies_spec (det : VarianceDetector) (data : List PricingRecord) :
    (∀ a ∈ det.detect_anomalies data,
      a.anomaly_type = AnomalyType.regional_variance →
        (a.severity = Severity.high ∨ a.severity = Severity.critical) ∧
        det.variance_threshold_pct ≤ |a.variance_percentage|) ∧
    List.Sorted sevLe (det.detect_anomalies data) ∧
    (∀ s : Severity,
      (det.detect_anomalies data).filter (fun a => a.severity == s) =
        (detectAnomaliesPre det data).filter (fun a => a.severity == s)) := by
  refine ⟨?_, ?_, ?_⟩
  · intro a ha
    rw [VarianceDetector.detect_anomalies, List.mem_insertionSort] at ha
    exact detectAnomaliesPre_regional_props det data a ha
  · exact List.sorted_insertionSort sevLe _
  · intro s
    exact filter_sev_insertionSort s _

theorem detect_anomalies_spec_witness :
    List.Sorted sevLe ((VarianceDetector.mk 2 15 []).detect_anomalies []) ∧
    ((VarianceDetector.mk 2 15 []).detect_anomalies []).filter
        (fun a => a.severity == Severity.low) =
      (detectAnomaliesPre ⟨2, 15, []⟩ []).filter (fun a => a.severity == Severity.low) :=
  ⟨(detect_anomalies_spec ⟨2, 15, []⟩ []).2.1,
   (detect_anomalies_spec ⟨2, 15, []⟩ []).2.2 Severity.low⟩

theorem calculate_proximity_score_of_nonpos {d : ℝ} (M k : ℝ) (h : d ≤ 0) :
    calculate_proximity_score d M k = 100 := by
  unfold calculate_proximity_score
  rw [if_pos h]

theorem calculate_proximity_score_of_far {d M : ℝ} (k : ℝ) (hM : 0 < M) (h : M ≤ d) :
    calculate_proximity_score d M k = 0 := by
  unfold calculate_proximity_score
  rw [if_neg (by linarith), if_pos h]

theorem haversine_same (lat lon : ℝ) : haversine_distance lat lon lat lon = 0 := by
  unfold haversine_distance radians atan2
  norm_num

theorem haversine_antipodal : haversine_distance 0 0 0 180 = 6371 * Real.pi := by
  unfold haversine_distance radians atan2
  norm_num
  unfold EARTH_RADIUS_KM
  ring

theorem antipodal_far : (500 : ℝ) ≤ 6371 * Real.pi := by
  nlinarith [Real.pi_gt_three]


/-- Evaluation helper: the proximity of a market at `(0, 0)` to a centre at
the same point: distance `0`, full score `100`. -/
theorem near_eval :
    ProximityAnalyzer.calculate_proximity ⟨500, 2, 60⟩ 0 0 0 0 "v" "vn" "c1" "n1" (some "m") =
      ⟨"v", "vn", "c1", "n1", some "m", 0, 100, some 0, some 1⟩ := by
  unfold ProximityAnalyzer.calculate_proximity
  rw [haversine_same]
  simp [ProximityScore.mk.injEq, calculate_proximity_score_of_nonpos,
    estimate_travel_time, calculate_shipping_cost_factor]

/-- Evaluation helper: the proximity of a market at `(0, 0)` to a centre at
the antipodal point `(0, 180)`: distance `6371·π ≥ 500`, score `0`. -/
theorem far_eval :
    ProximityAnalyzer.calculate_proximity ⟨500, 2, 60⟩ 0 0 0 180 "v" "vn" "c2" "n2" (some "m") =
      ⟨"v", "vn", "c2", "n2", some "m", 6371 * Real.pi, 0,
        some (6371 * Real.pi / 60), some (1 + 6371 * Real.pi * (5 / 1000))⟩ := by
  have hpos : (0 : ℝ) < 6371 * Real.pi := by positivity
  unfold ProximityAnalyzer.calculate_proximity
  rw [haversine_antipodal]
  simp [ProximityScore.mk.injEq,
    calculate_proximity_score_of_far 2 (by norm_num : (0:ℝ) < 500) antipodal_far,
    estimate_travel_time, calculate_shipping_cost_factor, not_le.mpr hpos]

/-- Unfolding equation for `analyze_vendor_coverage` when at least one
centre matches the vendor. -/
theorem analyze_vendor_coverage_eq (a : ProximityAnalyzer) (market : MarketRec)
    (vendor : VendorRec) (dcs : List CenterRec)
    (h : dcs.filter (fun dc => dc.vendor_id == vendor.vendor_id) ≠ []) :
    a.analyze_vendor_coverage market vendor dcs =
      (let sorted_scores := ((dcs.filter (fun dc => dc.vendor_id == vendor.vendor_id)).map
          (fun dc => a.calculate_proximity (market.latitude : ℝ) (market.longitude : ℝ)
            (dc.latitude : ℝ) (dc.longitude : ℝ) vendor.vendor_id vendor.vendor_name
            dc.center_id dc.center_name (some market.market_id))).insertionSort distLe
      let distances := sorted_scores.map (·.distance_km)
      let weights := (List.range sorted_scores.length).map (fun i : ℕ => (1 : ℝ) / ((i : ℝ) + 1))
      ⟨vendor.vendor_id, vendor.vendor_name, market.market_id, market.region_name,
        ((listMin distances : ℝ) : EReal), ((distances.sum / (distances.length : ℝ) : ℝ) : EReal),
        ((sorted_scores.zip weights).map (fun pw => pw.1.proximity_score * pw.2)).sum /
          weights.sum,
        sorted_scores.length, sorted_scores⟩) := by
  have hmapne : (dcs.filter (fun dc => dc.vendor_id == vendor.vendor_id)).map
      (fun dc => a.calculate_proximity (market.latitude : ℝ) (market.longitude : ℝ)
        (dc.latitude : ℝ) (dc.longitude : ℝ) vendor.vendor_id vendor.vendor_name
        dc.center_id dc.center_name (some market.market_id)) ≠ [] := by
    intro hc
    exact h (List.map_eq_nil_iff.mp hc)
  rw [ProximityAnalyzer.analyze_vendor_coverage]
  dsimp only
  rw [if_neg (by simpa [List.isEmpty_iff] using hmapne)]

/-- C1 (counterexample): one matching centre at the market's own location
gives `coverage_score = 100`; adding a second centre at distance
`6371·π ≥ max_distance_km` (proximity score `0`) drops the distance-rank
weighted average to `200/3 < 100` while the nearest distance stays `0` — so
adding a further centre can lower `coverage_score`, refuting the claim's
monotonicity clause. -/
theorem analyze_vendor_coverage_not_monotone :
    (ProximityAnalyzer.analyze_vendor_coverage ⟨500, 2, 60⟩ ⟨0, 0, "m", "r"⟩ ⟨"v", "vn"⟩
      [⟨"c1", "n1", "v", 0, 0⟩]).coverage_score = 100 ∧
    (ProximityAnalyzer.analyze_vendor_coverage ⟨500, 2, 60⟩ ⟨0, 0, "m", "r"⟩ ⟨"v", "vn"⟩
      [⟨"c1", "n1", "v", 0, 0⟩, ⟨"c2", "n2", "v", 0, 180⟩]).coverage_score = 200 / 3 ∧
    (ProximityAnalyzer.analyze_vendor_coverage ⟨500, 2, 60⟩ ⟨0, 0, "m", "r"⟩ ⟨"v", "vn"⟩
      [⟨"c1", "n1", "v", 0, 0⟩, ⟨"c2", "n2", "v", 0, 180⟩]).nearest_center_distance_km =
      (ProximityAnalyzer.analyze_vendor_coverage ⟨500, 2, 60⟩ ⟨0, 0, "m", "r"⟩ ⟨"v", "vn"⟩
        [⟨"c1", "n1", "v", 0, 0⟩]).nearest_center_distance_km ∧
    (ProximityAnalyzer.analyze_vendor_coverage ⟨500, 2, 60⟩ ⟨0, 0, "m", "r"⟩ ⟨"v", "vn"⟩
      [⟨"c1", "n1", "v", 0, 0⟩, ⟨"c2", "n2", "v", 0, 180⟩]).coverage_score <
      (ProximityAnalyzer.analyze_vendor_coverage ⟨500, 2, 60⟩ ⟨0, 0, "m", "r"⟩ ⟨"v", "vn"⟩
        [⟨"c1", "n1", "v", 0, 0⟩]).coverage_score := by
  have hge : (0 : ℝ) ≤ 6371 * Real.pi := by positivity
  have hmin0 : min (0 : ℝ) (6371 * Real.pi) = 0 := min_eq_left hge
  have hne1 : ([⟨"c1", "n1", "v", 0, 0⟩] : List CenterRec).filter
      (fun dc => dc.vendor_id == ("v" : String)) ≠ [] := by
    simp +decide
  have hne2 : ([⟨"c1", "n1", "v", 0, 0⟩, ⟨"c2", "n2", "v", 0, 180⟩] : List CenterRec).filter
      (fun dc => dc.vendor_id == ("v" : String)) ≠ [] := by
    simp +decide
  have hc1 := analyze_vendor_coverage_eq ⟨500, 2, 60⟩ ⟨0, 0, "m", "r"⟩ ⟨"v", "vn"⟩
    [⟨"c1", "n1", "v", 0, 0⟩] hne1
  have hc2 := analyze_vendor_coverage_eq ⟨500, 2, 60⟩ ⟨0, 0, "m", "r"⟩ ⟨"v", "vn"⟩
    [⟨"c1", "n1", "v", 0, 0⟩, ⟨"c2", "n2", "v", 0, 180⟩] hne2
  rw [hc1, hc2]
  simp +decide only [List.filter_cons, List.filter_nil, List.map_cons, List.map_nil]
  norm_num [near_eval, far_eval, List.insertionSort, List.orderedInsert, distLe,
    listMin, List.foldl, hge, hmin0, List.range_succ, List.range_zero, List.zip,
    List.zipWith, List.sum_cons, List.sum_nil, Real.pi_pos]

/-- C1 (amended): when at least one centre matches, `analyze_vendor_coverage`
computes `coverage_score` as the weighted average of the individual proximity
scores sorted nearest-first (a sorted permutation of the per-centre scores),
with weight `1/(i+1)` for the i-th nearest centre (0-indexed) normalized by
the sum of weights; `centers` is that sorted list, `center_count` its length
and the nearest distance the minimum distance.  (Adding a further centre may
lower the score — see the counterexample.) -/
theorem analyze_vendor_coverage_weighted_avg (a : ProximityAnalyzer) (market : MarketRec)
    (vendor : VendorRec) (dcs : List CenterRec)
    (h : dcs.filter (fun dc => dc.vendor_id == vendor.vendor_id) ≠ []) :
    ∃ l : List ProximityScore,
      l.Perm ((dcs.filter (fun dc => dc.vendor_id == vendor.vendor_id)).map
        (fun dc => a.calculate_proximity (market.latitude : ℝ) (market.longitude : ℝ)
          (dc.latitude : ℝ) (dc.longitude : ℝ) vendor.vendor_id vendor.vendor_name
          dc.center_id dc.center_name (some market.market_id))) ∧
      List.Sorted distLe l ∧
      (a.analyze_vendor_coverage market vendor dcs).centers = l ∧
      (a.analyze_vendor_coverage market vendor dcs).center_count = l.length ∧
      (a.analyze_vendor_coverage market vendor dcs).coverage_score =
        ((l.zip ((List.range l.length).map (fun i : ℕ => (1 : ℝ) / ((i : ℝ) + 1)))).map
          (fun pw => pw.1.proximity_score * pw.2)).sum /
        ((List.range l.length).map (fun i : ℕ => (1 : ℝ) / ((i : ℝ) + 1))).sum ∧
      (a.analyze_vendor_coverage market vendor dcs).nearest_center_distance_km =
        ((listMin (l.map (·.distance_km)) : ℝ) : EReal) := by
  refine ⟨((dcs.filter (fun dc => dc.vendor_id == vendor.vendor_id)).map
      (fun dc => a.calculate_proximity (market.latitude : ℝ) (market.longitude : ℝ)
        (dc.latitude : ℝ) (dc.longitude : ℝ) vendor.vendor_id vendor.vendor_name
        dc.center_id dc.center_name (some market.market_id))).insertionSort distLe,
    List.perm_insertionSort distLe _, List.sorted_insertionSort distLe _, ?_, ?_, ?_, ?_⟩ <;>
    rw [analyze_vendor_coverage_eq a market vendor dcs h]

/-- C10: `analyze_market_vendors` drops exactly the vendors with zero
matching distribution centres: a vendor with at least one matching centre has
`center_count ≥ 1` and its coverage is in the returned list even when every
matching centre lies at distance `≥ max_distance_km` (in which case its
`coverage_score` is exactly `0`); conversely every returned coverage has
`center_count > 0`. -/
theorem analyze_market_vendors_spec (a : ProximityAnalyzer) (market : MarketRec)
    (vendors : List VendorRec) (dcs : List CenterRec) (vendor : VendorRec)
    (hv : vendor ∈ vendors)
    (hc : dcs.filter (fun dc => dc.vendor_id == vendor.vendor_id) ≠ []) :
    0 < (a.analyze_vendor_coverage market vendor dcs).center_count ∧
    a.analyze_vendor_coverage market vendor dcs ∈
      a.analyze_market_vendors market vendors dcs ∧
    ((∀ dc ∈ dcs.filter (fun dc => dc.vendor_id == vendor.vendor_id),
        a.max_distance_km ≤ haversine_distance (market.latitude : ℝ) (market.longitude : ℝ)
          (dc.latitude : ℝ) (dc.longitude : ℝ)) → 0 < a.max_distance_km →
      (a.analyze_vendor_coverage market vendor dcs).coverage_score = 0) ∧
    (∀ cov ∈ a.analyze_market_vendors market vendors dcs, 0 < cov.center_count) := by
  have hcount : 0 < (a.analyze_vendor_coverage market vendor dcs).center_count := by
    rw [analyze_vendor_coverage_eq a market vendor dcs hc]
    simpa using List.length_pos.mpr hc
  refine ⟨hcount, ?_, ?_, ?_⟩
  · rw [ProximityAnalyzer.analyze_market_vendors, List.mem_insertionSort, List.mem_filter]
    exact ⟨List.mem_map_of_mem _ hv, decide_eq_true hcount⟩
  · intro hfar hM
    rw [analyze_vendor_coverage_eq a market vendor dcs hc]
    dsimp only
    rw [List.sum_eq_zero, zero_div]
    intro x hx
    rw [List.mem_map] at hx
    obtain ⟨pw, hpw, rfl⟩ := hx
    have hp1 : pw.1 ∈ (((dcs.filter (fun dc => dc.vendor_id == vendor.vendor_id)).map
        (fun dc => a.calculate_proximity (market.latitude : ℝ) (market.longitude : ℝ)
          (dc.latitude : ℝ) (dc.longitude : ℝ) vendor.vendor_id vendor.vendor_name
          dc.center_id dc.center_name (some market.market_id))).insertionSort distLe) :=
      (List.of_mem_zip hpw).1
    rw [List.mem_insertionSort, List.mem_map] at hp1
    obtain ⟨dc, hdc, hfdc⟩ := hp1
    have hscore : pw.1.proximity_score = 0 := by
      rw [← hfdc]
      unfold ProximityAnalyzer.calculate_proximity
      dsimp only
      exact calculate_proximity_score_of_far a.decay_factor hM (hfar dc hdc)
    rw [hscore, zero_mul]
  · intro cov hcov
    rw [ProximityAnalyzer.analyze_market_vendors, List.mem_insertionSort,
      List.mem_filter] at hcov
    exact of_decide_eq_true hcov.2

theorem analyze_vendor_coverage_weighted_avg_witness :
    ∃ l : List ProximityScore,
      l.Perm ((([⟨"c1", "n1", "v", 0, 0⟩] : List CenterRec).filter
          (fun dc => dc.vendor_id == ("v" : String))).map
        (fun dc => ProximityAnalyzer.calculate_proximity ⟨500, 2, 60⟩
          ((0 : ℚ) : ℝ) ((0 : ℚ) : ℝ) (dc.latitude : ℝ) (dc.longitude : ℝ)
          "v" "vn" dc.center_id dc.center_name (some "m"))) ∧
      List.Sorted distLe l ∧
      (ProximityAnalyzer.analyze_vendor_coverage ⟨500, 2, 60⟩ ⟨0, 0, "m", "r"⟩ ⟨"v", "vn"⟩
        [⟨"c1", "n1", "v", 0, 0⟩]).centers = l ∧
      (ProximityAnalyzer.analyze_vendor_coverage ⟨500, 2, 60⟩ ⟨0, 0, "m", "r"⟩ ⟨"v", "vn"⟩
        [⟨"c1", "n1", "v", 0, 0⟩]).center_count = l.length ∧
      (ProximityAnalyzer.analyze_vendor_coverage ⟨500, 2, 60⟩ ⟨0, 0, "m", "r"⟩ ⟨"v", "vn"⟩
        [⟨"c1", "n1", "v", 0, 0⟩]).coverage_score =
        ((l.zip ((List.range l.length).map (fun i : ℕ => (1 : ℝ) / ((i : ℝ) + 1)))).map
          (fun pw => pw.1.proximity_score * pw.2)).sum /
        ((List.range l.length).map (fun i : ℕ => (1 : ℝ) / ((i : ℝ) + 1))).sum ∧
      (ProximityAnalyzer.analyze_vendor_coverage ⟨500, 2, 60⟩ ⟨0, 0, "m", "r"⟩ ⟨"v", "vn"⟩
        [⟨"c1", "n1", "v", 0, 0⟩]).nearest_center_distance_km =
        ((listMin (l.map (·.distance_km)) : ℝ) : EReal) :=
  analyze_vendor_coverage_weighted_avg ⟨500, 2, 60⟩ ⟨0, 0, "m", "r"⟩ ⟨"v", "vn"⟩
    [⟨"c1", "n1", "v", 0, 0⟩] (by simp +decide)

theorem analyze_market_vendors_spec_witness :
    0 < (ProximityAnalyzer.analyze_vendor_coverage ⟨500, 2, 60⟩ ⟨0, 0, "m", "r"⟩ ⟨"v", "vn"⟩
      [⟨"c2", "n2", "v", 0, 180⟩]).center_count ∧
    ProximityAnalyzer.analyze_vendor_coverage ⟨500, 2, 60⟩ ⟨0, 0, "m", "r"⟩ ⟨"v", "vn"⟩
      [⟨"c2", "n2", "v", 0, 180⟩] ∈
      ProximityAnalyzer.analyze_market_vendors ⟨500, 2, 60⟩ ⟨0, 0, "m", "r"⟩ [⟨"v", "vn"⟩]
        [⟨"c2", "n2", "v", 0, 180⟩] ∧
    (ProximityAnalyzer.analyze_vendor_coverage ⟨500, 2, 60⟩ ⟨0, 0, "m", "r"⟩ ⟨"v", "vn"⟩
      [⟨"c2", "n2", "v", 0, 180⟩]).coverage_score = 0 := by
  have h := analyze_market_vendors_spec ⟨500, 2, 60⟩ ⟨0, 0, "m", "r"⟩ [⟨"v", "vn"⟩]
    [⟨"c2", "n2", "v", 0, 180⟩] ⟨"v", "vn"⟩ (by simp) (by simp +decide)
  refine ⟨h.1, h.2.1, h.2.2.1 ?_ (by norm_num)⟩
  intro dc hdc
  simp +decide at hdc
  subst hdc
  dsimp only
  rw [show ((0 : ℚ) : ℝ) = (0 : ℝ) by norm_num,
    show ((180 : ℚ) : ℝ) = (180 : ℝ) by norm_num, haversine_antipodal]
  exact antipodal_far

theorem proximity_score_spec_witness :
    calculate_proximity_score (-1) 500 2 = 100 ∧
    calculate_proximity_score 600 500 2 = 0 ∧
    calculate_proximity_score 100 500 2 = 100 * Real.exp (-2 * ((100 : ℝ) / 500)) ∧
    (0 ≤ calculate_proximity_score 100 500 2 ∧ calculate_proximity_score 100 500 2 ≤ 100) ∧
    calculate_proximity_score 200 500 2 < calculate_proximity_score 100 500 2 := by
  refine ⟨?_, ?_, ?_, ?_, ?_⟩
  · exact (proximity_score_spec 500 2 (-1) 0 (by norm_num) (by norm_num)).1 (by norm_num)
  · exact (proximity_score_spec 500 2 600 700 (by norm_num) (by norm_num)).2.1 (by norm_num)
  · exact (proximity_score_spec 500 2 100 200 (by norm_num) (by norm_num)).2.2.1
      (by norm_num) (by norm_num)
  · exact (proximity_score_spec 500 2 100 200 (by norm_num) (by norm_num)).2.2.2.1
  · exact (proximity_score_spec 500 2 100 200 (by norm_num) (by norm_num)).2.2.2.2
      (by norm_num) (by norm_num) (by norm_num)
